import Mathlib

/-
  Verification development for the multi-device synchronization engine of the
  media-tracking service (backend/app: conflict resolver, sync action
  processor, change feed builder, fan-out notifier).

  Python floats are modelled as rationals.  SQLAlchemy rows are modelled as
  Lean structures; a table is a list of rows in store order (SQLite returns
  rows in rowid order when no ORDER BY is given, i.e. insertion order).  The
  ORM session is modelled as a pair of states: the committed state and the
  current (flushed but possibly uncommitted) state; commit copies current to
  committed, rollback copies committed back.  Python exceptions are modelled
  with Except: a branch that raises produces an error value which the outer
  handler of the processor turns into an error response plus a rollback.
  The injected clock is an explicit `now` argument; the consecutive
  time.time() calls within one action are modelled as a single instant.
  JSON blobs (tmdb_data / omdb_data) are kept as opaque strings.
-/

namespace MM

/-- Clock skew grace from ConflictResolver.CLOCK_SKEW_GRACE_SECONDS. -/
def CLOCK_SKEW_GRACE_SECONDS : ℚ := 1

/-- ConflictResolver.has_conflict: returns true when the client timestamp is
older than the server timestamp minus the skew grace; absent either
timestamp, returns false. -/
def has_conflict (server_last_modified client_timestamp : Option ℚ) : Bool :=
  match server_last_modified, client_timestamp with
  | some s, some c => decide (c < s - CLOCK_SKEW_GRACE_SECONDS)
  | _, _ => false

/-- Python truthiness for an optional string: None and the empty string are
falsy. -/
def oTruthy : Option String → Bool
  | none => false
  | some s => !s.isEmpty

/-- Row of the movies table (models.Movie). -/
structure MovieRow where
  imdb_id : String
  user_id : String
  tmdb_data : Option String
  omdb_data : Option String
  media_type : String
  last_modified : Option ℚ
  deriving DecidableEq

/-- Row of the movie_status table (models.MovieStatus). -/
structure MovieStatusRow where
  imdb_id : String
  user_id : String
  status : String
  custom_list_id : Option String
  deriving DecidableEq

/-- Row of the recommendations table (models.Recommendation, after the
people/recommendations rework: keyed by person_id, vote_type is a Bool). -/
structure RecommendationRow where
  id : Nat
  imdb_id : String
  user_id : String
  person_id : Nat
  date_recommended : ℚ
  vote_type : Bool
  deriving DecidableEq

/-- Row of the people table (models.Person).  Note: there is no is_default
column; it was dropped in the people/recommendations rework. -/
structure PersonRow where
  id : Nat
  name : String
  user_id : String
  is_trusted : Option Bool
  color : String
  emoji : Option String
  quick_key : Option String
  last_modified : Option ℚ
  deriving DecidableEq

/-- Row of the custom_lists table (models.CustomList). -/
structure CustomListRow where
  id : String
  user_id : String
  name : String
  color : String
  icon : String
  position : Int
  created_at : ℚ
  last_modified : Option ℚ
  deriving DecidableEq

/-- Row of the watch_history table (models.WatchHistory); my_rating is a
NOT NULL column. -/
structure WatchHistoryRow where
  imdb_id : String
  user_id : String
  date_watched : ℚ
  my_rating : ℚ
  deriving DecidableEq

/-- The relational store, one list per table, in store (rowid) order. -/
structure DB where
  movies : List MovieRow
  statuses : List MovieStatusRow
  recommendations : List RecommendationRow
  people : List PersonRow
  custom_lists : List CustomListRow
  watch_history : List WatchHistoryRow
  deriving DecidableEq

/-- ORM session: committed state plus current (flushed) state. -/
structure Session where
  committed : DB
  current : DB
  deriving DecidableEq

/-- db.commit(): the current state becomes durable. -/
def Session.commit (s : Session) : Session := ⟨s.current, s.current⟩

/-- db.rollback(): pending changes are discarded. -/
def Session.rollback (s : Session) : Session := ⟨s.committed, s.committed⟩

/-- First movie row matching (imdb_id, user_id), as queried all over sync.py. -/
def findMovie (db : DB) (user_id imdb_id : String) : Option MovieRow :=
  db.movies.find? (fun m => m.imdb_id == imdb_id && m.user_id == user_id)

/-- Replace the movie row keyed by (imdb_id, user_id). -/
def updateMovieRow (db : DB) (user_id imdb_id : String) (f : MovieRow → MovieRow) : DB :=
  { db with movies := db.movies.map (fun m =>
      if m.imdb_id == imdb_id && m.user_id == user_id then f m else m) }

/-- Result of services.movies.get_or_create_movie_with_state. -/
structure GetOrCreateResult where
  movie : MovieRow
  created : Bool
  session : Session
  deriving DecidableEq

/-- services.movies.get_or_create_movie_with_state: fetch the movie for a
user or insert the default record (movie plus toWatch status) when missing.
On an existing movie, media_type / tmdb_data / omdb_data are patched only
when the argument is truthy and (for the blobs) the stored value is falsy;
if any patch happened, last_modified is set and the change is flushed
(visible in the current state, not yet committed). -/
def get_or_create_movie_with_state (now : ℚ) (s : Session) (user_id imdb_id : String)
    (tmdb_data omdb_data : Option String) (media_type : Option String) :
    GetOrCreateResult :=
  match findMovie s.current user_id imdb_id with
  | some movie0 =>
      let normalized_media_type : Option String :=
        match media_type with
        | some mt => if mt == "movie" || mt == "tv" then some mt else none
        | none => none
      let step1 : MovieRow × Bool :=
        match normalized_media_type with
        | some mt =>
            if movie0.media_type ≠ mt then ({ movie0 with media_type := mt }, true)
            else (movie0, false)
        | none => (movie0, false)
      let step2 : MovieRow × Bool :=
        if oTruthy tmdb_data && !(oTruthy step1.1.tmdb_data) then
          ({ step1.1 with tmdb_data := tmdb_data }, true)
        else step1
      let step3 : MovieRow × Bool :=
        if oTruthy omdb_data && !(oTruthy step2.1.omdb_data) then
          ({ step2.1 with omdb_data := omdb_data }, true)
        else step2
      if step3.2 then
        let movie1 := { step3.1 with last_modified := some now }
        ⟨movie1, false,
          { s with current := updateMovieRow s.current user_id imdb_id (fun _ => movie1) }⟩
      else ⟨movie0, false, s⟩
  | none =>
      let movie1 : MovieRow :=
        { imdb_id := imdb_id
          user_id := user_id
          tmdb_data := if oTruthy tmdb_data then tmdb_data else none
          omdb_data := if oTruthy omdb_data then omdb_data else none
          media_type :=
            match media_type with
            | some mt => if mt == "movie" || mt == "tv" then mt else "movie"
            | none => "movie"
          last_modified := some now }
      let st : MovieStatusRow := ⟨imdb_id, user_id, "toWatch", none⟩
      ⟨movie1, true,
        { s with current :=
            { s.current with
                movies := s.current.movies ++ [movie1]
                statuses := s.current.statuses ++ [st] } }⟩

/-- One serialized recommendation inside serialize_movie. -/
structure SerializedRecommendation where
  id : Nat
  imdb_id : String
  user_id : String
  person_id : Nat
  person_name : String
  person : String
  date_recommended : ℚ
  vote_type : Bool
  deriving DecidableEq

/-- Serialized watch history inside serialize_movie. -/
structure SerializedWatchHistory where
  imdb_id : String
  user_id : String
  date_watched : ℚ
  my_rating : ℚ
  deriving DecidableEq

/-- The API-facing serialization of a movie (services.movies.serialize_movie). -/
structure SerializedMovie where
  imdb_id : String
  user_id : String
  tmdb_data : Option String
  omdb_data : Option String
  media_type : String
  last_modified : Option ℚ
  status : Option String
  recommendations : List SerializedRecommendation
  watch_history : Option SerializedWatchHistory
  deriving DecidableEq

/-- services.movies.serialize_movie.  Relationship attributes (status,
recommendations, watch_history, person_ref) are resolved against the
session state the movie was loaded from.  json.loads round-trips the opaque
blob, so tmdb_data / omdb_data pass through (None when falsy). -/
def serialize_movie (db : DB) (movie : MovieRow) : SerializedMovie :=
  { imdb_id := movie.imdb_id
    user_id := movie.user_id
    tmdb_data := if oTruthy movie.tmdb_data then movie.tmdb_data else none
    omdb_data := if oTruthy movie.omdb_data then movie.omdb_data else none
    media_type := if movie.media_type == "" then "movie" else movie.media_type
    last_modified := movie.last_modified
    status := (db.statuses.find? (fun st =>
        st.imdb_id == movie.imdb_id && st.user_id == movie.user_id)).map (·.status)
    recommendations :=
      (db.recommendations.filter (fun r =>
          r.imdb_id == movie.imdb_id && r.user_id == movie.user_id)).map (fun r =>
        let pname := (((db.people.find? (fun p => p.id == r.person_id)).map (·.name)).getD "")
        { id := r.id
          imdb_id := r.imdb_id
          user_id := r.user_id
          person_id := r.person_id
          person_name := pname
          person := pname
          date_recommended := r.date_recommended
          vote_type := r.vote_type })
    watch_history := (db.watch_history.find? (fun w =>
        w.imdb_id == movie.imdb_id && w.user_id == movie.user_id)).map (fun w =>
      ⟨w.imdb_id, w.user_id, w.date_watched, w.my_rating⟩) }

/-- Payload of one sync action (schemas.sync.SyncAction.data).  The JSON
object is modelled as a record of optional fields, one per key the
processor reads; an absent key is none.  A key present with JSON null is
conflated with an absent key. -/
structure SyncData where
  imdb_id : Option String := none
  person : Option String := none
  vote_type : Option String := none
  date_recommended : Option ℚ := none
  date_watched : Option ℚ := none
  tmdb_data : Option String := none
  omdb_data : Option String := none
  my_rating : Option ℚ := none
  rating : Option ℚ := none
  status : Option String := none
  custom_list_id : Option String := none
  name : Option String := none
  is_trusted : Option Bool := none
  is_default : Option Bool := none
  color : Option String := none
  emoji : Option String := none
  icon : Option String := none
  id : Option String := none
  position : Option Int := none
  deriving DecidableEq

/-- schemas.sync.SyncAction: action kind, payload, client timestamp. -/
structure SyncAction where
  action : String
  data : SyncData
  timestamp : ℚ
  deriving DecidableEq

/-- schemas.sync.SyncResponse. -/
structure SyncResponse where
  success : Bool
  last_modified : Option ℚ := none
  error : Option String := none
  conflict : Bool := false
  server_state : Option SerializedMovie := none
  deriving DecidableEq

/-- An emitted domain event: (eventKind, optional entity id). -/
abbrev SyncEvent := String × Option String

/-- sync._normalize_client_timestamp: values above 10_000_000_000 are taken
as milliseconds since epoch and divided by 1000; smaller values pass
through as seconds; None stays None. -/
def normalize_client_timestamp : Option ℚ → Option ℚ
  | none => none
  | some v => if v > 10000000000 then some (v / 1000) else some v

/-- Payload returned by ConflictResolver.check_conflict. -/
structure ConflictPayload where
  conflict : Bool
  server_last_modified : Option ℚ
  server_state : Option SerializedMovie
  deriving DecidableEq

/-- ConflictResolver.check_conflict specialised to movies, with
serialize_movie as the serializer (as at every call site in sync.py).  The
entity is always a real row here, so the falsy-entity early return never
fires. -/
def check_conflict (db : DB) (entity : MovieRow) (client_timestamp : Option ℚ) :
    Option ConflictPayload :=
  if has_conflict entity.last_modified client_timestamp then
    some ⟨true, entity.last_modified, some (serialize_movie db entity)⟩
  else none

/-- Status values admitted by the CHECK constraint on movie_status. -/
def allowedStatusValues : List String := ["toWatch", "watched", "deleted", "custom"]

/-- The try-block of sync._process_sync_action: one typed mutation applied
to the session.  A raised Python exception is an Except.error carrying the
exception text.  `fresh_uuid` stands for the str(uuid.uuid4()) drawn in the
addList branch.  All time.time() calls are the instant `now`. -/
def processSyncActionCore (now : ℚ) (user_id fresh_uuid : String)
    (client_timestamp : Option ℚ) (action_type : String) (data : SyncData)
    (s : Session) : Except String (SyncResponse × List SyncEvent × Session) :=
  if action_type == "addRecommendation" then
    if !(oTruthy data.imdb_id) then
      .ok ({ success := false, error := some "Missing imdb_id" }, [], s)
    else
      let imdb_id := data.imdb_id.getD ""
      let r := get_or_create_movie_with_state now s user_id imdb_id
        data.tmdb_data data.omdb_data none
      if oTruthy data.person then
        -- The query filter `Recommendation.person == person_name` compares the
        -- class-level read-only Python property object with a string, which is
        -- the constant False (coerced to SQL false), so `existing` is always
        -- None.  Building Recommendation(person=person_name, ...) then raises:
        -- `person` has been a read-only property since the rework that keyed
        -- recommendations by person_id.
        .error "AttributeError: property person of Recommendation object has no setter"
      else
        let s2 := { r.session with current :=
          (updateMovieRow r.session.current user_id imdb_id
            (fun m => { m with last_modified := some now })) }
        let s3 := s2.commit
        let ev : SyncEvent :=
          if r.created then ("movieAdded", some imdb_id) else ("movieUpdated", some imdb_id)
        .ok ({ success := true, last_modified := some now }, [ev], s3)
  else if action_type == "removeRecommendation" then
    if !(oTruthy data.imdb_id) || !(oTruthy data.person) then
      .ok ({ success := false, error := some "Missing imdb_id/person" }, [], s)
    else
      -- The recommendation query filters on `Recommendation.person ==
      -- person_name`, the constant False (see addRecommendation), so no row is
      -- ever found and the delete branch is dead code: the action falls
      -- through to the unconditional success return.
      .ok ({ success := true, last_modified := some now }, [], s)
  else if action_type == "updateRecommendationVote" then
    if !(oTruthy data.imdb_id) || !(oTruthy data.person) then
      .ok ({ success := false, error := some "Missing imdb_id/person" }, [], s)
    else
      let imdb_id := data.imdb_id.getD ""
      let r := get_or_create_movie_with_state now s user_id imdb_id none none none
      match check_conflict r.session.current r.movie client_timestamp with
      | some c =>
          .ok ({ success := false
                 conflict := true
                 error := some "Conflict: server has a newer version of this movie"
                 last_modified := c.server_last_modified
                 server_state := c.server_state }, [], r.session)
      | none =>
          -- As above, `Recommendation.person == person_name` is the constant
          -- False: the recommendation is never found, so the action always
          -- rolls back and reports the not-found error.
          .ok ({ success := false, error := some "Recommendation not found" }, [],
               r.session.rollback)
  else if action_type == "markWatched" then
    if !(oTruthy data.imdb_id) then
      .ok ({ success := false, error := some "Missing imdb_id" }, [], s)
    else
      let imdb_id := data.imdb_id.getD ""
      let r := get_or_create_movie_with_state now s user_id imdb_id none none none
      match check_conflict r.session.current r.movie client_timestamp with
      | some c =>
          .ok ({ success := false
                 conflict := true
                 error := some "Conflict: server has a newer version of this movie"
                 last_modified := c.server_last_modified
                 server_state := c.server_state }, [], r.session)
      | none =>
          match data.my_rating <|> data.rating with
          | none =>
              -- my_rating is a NOT NULL column: writing None fails at commit
              -- with an IntegrityError, which the outer handler rolls back.
              .error "IntegrityError: NOT NULL constraint failed: watch_history.my_rating"
          | some rating =>
              let dw := data.date_watched.getD now
              let cur1 : DB :=
                match r.session.current.watch_history.find? (fun w =>
                    w.imdb_id == imdb_id && w.user_id == user_id) with
                | some _ =>
                    { r.session.current with watch_history :=
                        r.session.current.watch_history.map (fun w =>
                          if w.imdb_id == imdb_id && w.user_id == user_id then
                            { w with date_watched := dw, my_rating := rating }
                          else w) }
                | none =>
                    { r.session.current with watch_history :=
                        r.session.current.watch_history ++
                          [⟨imdb_id, user_id, dw, rating⟩] }
              let cur2 : DB :=
                match cur1.statuses.find? (fun st =>
                    st.imdb_id == imdb_id && st.user_id == user_id) with
                | some _ =>
                    { cur1 with statuses := cur1.statuses.map (fun st =>
                        if st.imdb_id == imdb_id && st.user_id == user_id then
                          { st with status := "watched" }
                        else st) }
                | none =>
                    { cur1 with statuses := cur1.statuses ++
                        [⟨imdb_id, user_id, "watched", none⟩] }
              let cur3 := updateMovieRow cur2 user_id imdb_id
                (fun m => { m with last_modified := some now })
              let s3 := Session.commit { r.session with current := cur3 }
              let ev : SyncEvent :=
                if r.created then ("movieAdded", some imdb_id)
                else ("movieUpdated", some imdb_id)
              .ok ({ success := true, last_modified := some now }, [ev], s3)
  else if action_type == "updateRating" then
    if !(oTruthy data.imdb_id) then
      .ok ({ success := false, error := some "Missing imdb_id" }, [], s)
    else
      let imdb_id := data.imdb_id.getD ""
      let r := get_or_create_movie_with_state now s user_id imdb_id none none none
      match check_conflict r.session.current r.movie client_timestamp with
      | some c =>
          .ok ({ success := false
                 conflict := true
                 error := some "Conflict: server has a newer version of this movie"
                 last_modified := c.server_last_modified
                 server_state := c.server_state }, [], r.session)
      | none =>
          match r.session.current.watch_history.find? (fun w =>
              w.imdb_id == imdb_id && w.user_id == user_id) with
          | none =>
              -- Returns without rollback: a lazily created movie stays pending
              -- in the session (uncommitted).
              .ok ({ success := false, error := some "Watch history not found" }, [],
                   r.session)
          | some _ =>
              match data.my_rating <|> data.rating with
              | none =>
                  .error "IntegrityError: NOT NULL constraint failed: watch_history.my_rating"
              | some rating =>
                  let cur1 := { r.session.current with watch_history :=
                      r.session.current.watch_history.map (fun w =>
                        if w.imdb_id == imdb_id && w.user_id == user_id then
                          { w with my_rating := rating }
                        else w) }
                  let cur2 := updateMovieRow cur1 user_id imdb_id
                    (fun m => { m with last_modified := some now })
                  let s3 := Session.commit { r.session with current := cur2 }
                  .ok ({ success := true, last_modified := some now },
                       [("movieUpdated", some imdb_id)], s3)
  else if action_type == "updateStatus" then
    if !(oTruthy data.imdb_id) || !(oTruthy data.status) then
      .ok ({ success := false, error := some "Missing imdb_id/status" }, [], s)
    else
      let imdb_id := data.imdb_id.getD ""
      let new_status := data.status.getD ""
      let r := get_or_create_movie_with_state now s user_id imdb_id none none none
      match check_conflict r.session.current r.movie client_timestamp with
      | some c =>
          .ok ({ success := false
                 conflict := true
                 error := some "Conflict: server has a newer version of this movie"
                 last_modified := c.server_last_modified
                 server_state := c.server_state }, [], r.session)
      | none =>
          if !(allowedStatusValues.contains new_status) then
            -- The CHECK constraint on movie_status.status fails at commit.
            .error "IntegrityError: CHECK constraint failed: check_status_values"
          else
            let clid := if new_status == "custom" then data.custom_list_id else none
            let cur1 :=
              match r.session.current.statuses.find? (fun st =>
                  st.imdb_id == imdb_id && st.user_id == user_id) with
              | some _ =>
                  { r.session.current with statuses :=
                      r.session.current.statuses.map (fun st =>
                        if st.imdb_id == imdb_id && st.user_id == user_id then
                          { st with status := new_status, custom_list_id := clid }
                        else st) }
              | none =>
                  { r.session.current with statuses :=
                      r.session.current.statuses ++
                        [⟨imdb_id, user_id, new_status, clid⟩] }
            let cur2 := updateMovieRow cur1 user_id imdb_id
              (fun m => { m with last_modified := some now })
            let s3 := Session.commit { r.session with current := cur2 }
            let ev : SyncEvent :=
              if new_status == "deleted" then ("movieDeleted", some imdb_id)
              else if r.created then ("movieAdded", some imdb_id)
              else ("movieUpdated", some imdb_id)
            .ok ({ success := true, last_modified := some now }, [ev], s3)
  else if action_type == "addPerson" then
    if !(oTruthy data.name) then
      .ok ({ success := false, error := some "Missing person name" }, [], s)
    else
      let name := data.name.getD ""
      match s.current.people.find? (fun p => p.name == name && p.user_id == user_id) with
      | some _ => .ok ({ success := true, last_modified := some now }, [], s)
      | none =>
          -- Person(..., is_default=data.get("is_default", False), ...) raises:
          -- the people table has no is_default column since the rework, so the
          -- declarative constructor rejects the keyword argument.
          .error "TypeError: is_default is an invalid keyword argument for Person"
  else if action_type == "updatePerson" || action_type == "updatePersonTrust" then
    match data.name with
    | none =>
        -- name is None, so the query matches no row.
        .ok ({ success := false, error := some "Person not found" }, [], s)
    | some name =>
        match s.current.people.find? (fun p => p.name == name && p.user_id == user_id) with
        | none => .ok ({ success := false, error := some "Person not found" }, [], s)
        | some _ =>
            let patch : PersonRow → PersonRow := fun p =>
              if action_type == "updatePersonTrust" then
                { p with is_trusted := data.is_trusted }
              else
                -- `person.is_default = ...` assigns a transient Python
                -- attribute (no such column), so it never reaches the store
                -- and is dropped here.
                let p1 := if data.is_trusted.isSome then
                    { p with is_trusted := data.is_trusted } else p
                let p2 := if data.color.isSome then
                    { p1 with color := data.color.getD p1.color } else p1
                if data.emoji.isSome then { p2 with emoji := data.emoji } else p2
            let cur1 := { s.current with people := s.current.people.map (fun p =>
                if p.name == name && p.user_id == user_id then
                  { patch p with last_modified := some now }
                else p) }
            let s2 := Session.commit { s with current := cur1 }
            .ok ({ success := true, last_modified := some now },
                 [("peopleUpdated", none)], s2)
  else if action_type == "deletePerson" then
    match data.name with
    | none => .ok ({ success := true, last_modified := some now }, [], s)
    | some name =>
        match s.current.people.find? (fun p => p.name == name && p.user_id == user_id) with
        | none => .ok ({ success := true, last_modified := some now }, [], s)
        | some person =>
            -- Deleting a person cascades to their recommendations.
            let cur1 := { s.current with
              people := s.current.people.filter (fun p => !(p.id == person.id))
              recommendations := s.current.recommendations.filter (fun r =>
                !(r.person_id == person.id)) }
            let s2 := Session.commit { s with current := cur1 }
            .ok ({ success := true, last_modified := some now },
                 [("peopleUpdated", none)], s2)
  else if action_type == "addList" then
    let list_id := if oTruthy data.id then data.id.getD "" else fresh_uuid
    let cur1 :=
      match s.current.custom_lists.find? (fun l =>
          l.id == list_id && l.user_id == user_id) with
      | some _ =>
          { s.current with custom_lists := s.current.custom_lists.map (fun l =>
              if l.id == list_id && l.user_id == user_id then
                { l with
                    name := data.name.getD l.name
                    color := data.color.getD l.color
                    icon := data.icon.getD l.icon
                    position := data.position.getD l.position
                    last_modified := some now }
              else l) }
      | none =>
          { s.current with custom_lists := s.current.custom_lists ++
              [{ id := list_id
                 user_id := user_id
                 name := data.name.getD "New List"
                 color := if oTruthy data.color then data.color.getD "" else "#0a84ff"
                 icon := if oTruthy data.icon then data.icon.getD "" else "list"
                 position := data.position.getD 0
                 created_at := now
                 last_modified := some now }] }
    let s2 := Session.commit { s with current := cur1 }
    .ok ({ success := true, last_modified := some now },
         [("listUpdated", some list_id)], s2)
  else if action_type == "updateList" then
    match data.id with
    | none => .ok ({ success := false, error := some "List not found" }, [], s)
    | some list_id =>
        match s.current.custom_lists.find? (fun l =>
            l.id == list_id && l.user_id == user_id) with
        | none => .ok ({ success := false, error := some "List not found" }, [], s)
        | some _ =>
            let cur1 := { s.current with custom_lists := s.current.custom_lists.map (fun l =>
                if l.id == list_id && l.user_id == user_id then
                  let l1 := if data.name.isSome then
                      { l with name := data.name.getD l.name } else l
                  let l2 := if data.color.isSome then
                      { l1 with color := data.color.getD l1.color } else l1
                  let l3 := if data.icon.isSome then
                      { l2 with icon := data.icon.getD l2.icon } else l2
                  let l4 := if data.position.isSome then
                      { l3 with position := data.position.getD l3.position } else l3
                  { l4 with last_modified := some now }
                else l) }
            let s2 := Session.commit { s with current := cur1 }
            .ok ({ success := true, last_modified := some now },
                 [("listUpdated", some list_id)], s2)
  else if action_type == "deleteList" then
    match data.id with
    | none =>
        -- id is None, so the query matches no row and nothing happens.
        .ok ({ success := true, last_modified := some now }, [], s)
    | some list_id =>
        match s.current.custom_lists.find? (fun l =>
            l.id == list_id && l.user_id == user_id) with
        | none => .ok ({ success := true, last_modified := some now }, [], s)
        | some _ =>
            -- Reassign every status of this user that references the list,
            -- then delete the list row (keyed by its primary key id).
            let cur1 := { s.current with
              statuses := s.current.statuses.map (fun st =>
                if st.custom_list_id == some list_id && st.user_id == user_id then
                  { st with status := "toWatch", custom_list_id := none }
                else st)
              custom_lists := s.current.custom_lists.filter (fun l => !(l.id == list_id)) }
            let s2 := Session.commit { s with current := cur1 }
            .ok ({ success := true, last_modified := some now },
                 [("listUpdated", some list_id)], s2)
  else
    .ok ({ success := false, error := some ("Unknown action type: " ++ action_type) }, [], s)

/-- sync._process_sync_action: normalizes the client timestamp, runs the
typed branch, and catches any exception by rolling the session back and
reporting the exception text as the action error.  Events appended before
a raise never survive to the handler in the source (every branch raises
before its event appends), so the handler returns no events. -/
def processSyncAction (now : ℚ) (user_id fresh_uuid : String) (a : SyncAction)
    (s : Session) : SyncResponse × List SyncEvent × Session :=
  match processSyncActionCore now user_id fresh_uuid
      (normalize_client_timestamp (some a.timestamp)) a.action a.data s with
  | .ok r => r
  | .error msg => ({ success := false, error := some msg }, [], s.rollback)

/-- The loop body of sync.sync_batch, processing the remaining actions
strictly in order.  `k` is the index of the first remaining action and
`uuidOf k` the uuid drawn for it.  Per-action events are aggregated only
when the result is a success and the event list is nonempty, exactly as
`if result.success and events` does. -/
def syncBatchGo (now : ℚ) (user_id : String) (uuidOf : Nat → String) :
    Nat → List SyncAction → Session → List SyncResponse × List SyncEvent × Session
  | _, [], s => ([], [], s)
  | k, a :: rest, s =>
      let r := processSyncAction now user_id (uuidOf k) a s
      let rec1 := syncBatchGo now user_id uuidOf (k + 1) rest r.2.2
      (r.1 :: rec1.1,
       (if r.1.success && !r.2.1.isEmpty then r.2.1 else []) ++ rec1.2.1,
       rec1.2.2)

/-- schemas.sync.BatchSyncResponse. -/
structure BatchSyncResponse where
  results : List SyncResponse
  server_timestamp : ℚ
  deriving DecidableEq

/-- sync.sync_batch: run the actions sequentially against one session,
collect one result per action in order, aggregate the successful actions
events, and stamp the response with the server time. -/
def sync_batch (now : ℚ) (user_id : String) (uuidOf : Nat → String)
    (actions : List SyncAction) (s : Session) :
    BatchSyncResponse × List SyncEvent × Session :=
  let r := syncBatchGo now user_id uuidOf 0 actions s
  (⟨r.1, now⟩, r.2.1, r.2.2)

/-- The three entity kinds flowing through the change feed. -/
inductive ChangeEntity where
  | movie (m : MovieRow)
  | person (p : PersonRow)
  | list (l : CustomListRow)
  deriving DecidableEq

/-- One row of the merged change feed: (kind tag, change time, entity),
mirroring the (str, float, object) tuples of _collect_changes. -/
abbrev ChangeRow := String × ℚ × ChangeEntity

/-- Sort key of a change row: its modification time. -/
def changeKey (r : ChangeRow) : ℚ := r.2.1

/-- SQL comparison `last_modified >= since`: NULL compares as unknown and
the row is excluded. -/
def timeGE : Option ℚ → ℚ → Bool
  | none, _ => false
  | some t, since => decide (since ≤ t)

/-- The unsorted concatenation of matched rows: all movies, then all
people, then all lists, each in store order, with `last_modified or 0.0`
as the change time.  A non-positive watermark selects everything. -/
def changeRowsUnsorted (db : DB) (user_id : String) (since : ℚ) : List ChangeRow :=
  let movies :=
    if since ≤ 0 then db.movies.filter (fun m => m.user_id == user_id)
    else db.movies.filter (fun m => m.user_id == user_id && timeGE m.last_modified since)
  let people :=
    if since ≤ 0 then db.people.filter (fun p => p.user_id == user_id)
    else db.people.filter (fun p => p.user_id == user_id && timeGE p.last_modified since)
  let lists :=
    if since ≤ 0 then db.custom_lists.filter (fun l => l.user_id == user_id)
    else db.custom_lists.filter (fun l =>
      l.user_id == user_id && timeGE l.last_modified since)
  (movies.map (fun m => ("movie", m.last_modified.getD 0, ChangeEntity.movie m))) ++
    (people.map (fun p => ("person", p.last_modified.getD 0, ChangeEntity.person p))) ++
    (lists.map (fun l => ("list", l.last_modified.getD 0, ChangeEntity.list l)))

/-- Stable insertion step: the new element goes after every element with a
strictly smaller key and before the first element with an equal or larger
key.  Combined with insertion from the right end of the list, this is
extensionally the stable ascending sort performed by list.sort(key=...). -/
def insertByTime (x : ChangeRow) : List ChangeRow → List ChangeRow
  | [] => [x]
  | y :: ys => if changeKey y < changeKey x then y :: insertByTime x ys
               else x :: y :: ys

/-- Stable sort by change time, modelling change_rows.sort(key=lambda row: row[1]). -/
def sortByTime : List ChangeRow → List ChangeRow
  | [] => []
  | x :: xs => insertByTime x (sortByTime xs)

/-- The merged, time-ordered change sequence built by _collect_changes
before slicing. -/
def mergedRows (db : DB) (user_id : String) (since : ℚ) : List ChangeRow :=
  sortByTime (changeRowsUnsorted db user_id since)

/-- Payload produced by _person_payload, as written in the source. -/
structure PersonPayload where
  name : String
  user_id : String
  is_trusted : Option Bool
  is_default : Bool
  color : String
  emoji : Option String
  last_modified : Option ℚ
  deriving DecidableEq

/-- sync._person_payload: reads person.is_default, but the Person model has
no such column or attribute (it was dropped in the people rework), so
building the payload always raises AttributeError. -/
def person_payload (_person : PersonRow) : Except String PersonPayload :=
  .error "AttributeError: Person object has no attribute is_default"

/-- Payload produced by _list_payload. -/
structure CustomListPayload where
  id : String
  user_id : String
  name : String
  color : String
  icon : String
  position : Int
  created_at : ℚ
  last_modified : Option ℚ
  deriving DecidableEq

/-- sync._list_payload. -/
def list_payload (l : CustomListRow) : CustomListPayload :=
  ⟨l.id, l.user_id, l.name, l.color, l.icon, l.position, l.created_at, l.last_modified⟩

/-- Response of the /sync/changes endpoint (_collect_changes). -/
structure ChangesPayload where
  movies : List SerializedMovie
  people : List PersonPayload
  lists : List CustomListPayload
  deleted_movie_ids : List String
  has_more : Bool
  next_offset : Option Nat
  server_timestamp : ℚ
  deriving DecidableEq

/-- The payload-building loop of _collect_changes over the selected slice,
in order; serializing a person raises (see person_payload), which aborts
the request. -/
def buildChangePayloads (db : DB) :
    List ChangeRow →
    Except String (List SerializedMovie × List PersonPayload ×
      List CustomListPayload × List String)
  | [] => .ok ([], [], [], [])
  | (_, _, ChangeEntity.movie m) :: rest =>
      let sm := serialize_movie db m
      let isDeleted :=
        ((db.statuses.find? (fun st =>
            st.imdb_id == m.imdb_id && st.user_id == m.user_id)).map (·.status))
          == some "deleted"
      (buildChangePayloads db rest).map (fun r =>
        (sm :: r.1, r.2.1, r.2.2.1,
         if isDeleted then m.imdb_id :: r.2.2.2 else r.2.2.2))
  | (_, _, ChangeEntity.person p) :: rest =>
      match person_payload p with
      | .error e => .error e
      | .ok pp =>
          (buildChangePayloads db rest).map (fun r =>
            (r.1, pp :: r.2.1, r.2.2.1, r.2.2.2))
  | (_, _, ChangeEntity.list l) :: rest =>
      (buildChangePayloads db rest).map (fun r =>
        (r.1, r.2.1, list_payload l :: r.2.2.1, r.2.2.2))

/-- sync._collect_changes: merge, sort, slice [offset, offset+limit), then
build the per-kind payloads from the slice.  hasMore is true exactly when
the slice stops short of the merged total; next_offset is offset+limit
when hasMore, else None. -/
def collectChanges (now : ℚ) (db : DB) (user_id : String) (since : ℚ)
    (limit offset : Nat) : Except String ChangesPayload :=
  let rows := mergedRows db user_id since
  let total := rows.length
  let selected := (rows.drop offset).take limit
  (buildChangePayloads db selected).map (fun r =>
    { movies := r.1
      people := r.2.1
      lists := r.2.2.1
      deleted_movie_ids := r.2.2.2
      has_more := decide (offset + limit < total)
      next_offset := if offset + limit < total then some (offset + limit) else none
      server_timestamp := now })

/-- A live push connection handle.  The ok flag abstracts whether
send_json on this websocket succeeds. -/
structure Conn where
  id : Nat
  ok : Bool
  deriving DecidableEq

/-- The SyncNotifier registry: user id to the set of registered handles.
A dict key that is absent is modelled as the empty list; disconnect pops a
user entry as soon as it empties, so absent and present-but-empty are
indistinguishable. -/
abbrev Registry := String → List Conn

/-- SyncNotifier.connect (set add semantics, duplicate-free). -/
def connect (reg : Registry) (user_id : String) (c : Conn) : Registry :=
  fun v => if v = user_id then
      (if (reg user_id).contains c then reg user_id else reg user_id ++ [c])
    else reg v

/-- SyncNotifier.disconnect: discard the handle from the user entry. -/
def disconnect (reg : Registry) (user_id : String) (c : Conn) : Registry :=
  fun v => if v = user_id then (reg user_id).filter (fun x => !(x == c)) else reg v

/-- SyncNotifier.broadcast: iterate over a snapshot of the user entry,
send to each handle, and disconnect every handle whose send fails.
Returns the handles that received the message and the pruned registry. -/
def broadcast (reg : Registry) (user_id : String) (_message : String) :
    List Conn × Registry :=
  let snapshot := reg user_id
  (snapshot.filter (·.ok),
   snapshot.foldl (fun r c => if c.ok then r else disconnect r user_id c) reg)

/-- Change rank of an entity kind in the order the feed concatenates them. -/
def changeKindRank (r : ChangeRow) : Nat :=
  match r.2.2 with
  | .movie _ => 0
  | .person _ => 1
  | .list _ => 2

/-- The natural identifier of a change row entity (imdb id, person id,
list id). -/
def changeEntityId (r : ChangeRow) : String :=
  match r.2.2 with
  | .movie m => m.imdb_id
  | .person p => toString p.id
  | .list l => l.id

/-- Modelled from the spec: the tie-breaking order the spec claims for the
merged feed - modification time ascending, ties broken by entity kind and
then by identifier.  Stated to compare against the order the code produces. -/
def specTieOrder (a b : ChangeRow) : Prop :=
  changeKey a < changeKey b ∨
    (changeKey a = changeKey b ∧
      (changeKindRank a < changeKindRank b ∨
        (changeKindRank a = changeKindRank b ∧
          ¬ (changeEntityId b < changeEntityId a))))

instance (a b : ChangeRow) : Decidable (specTieOrder a b) := by
  unfold specTieOrder; infer_instance

-- Concrete fixtures used by counterexamples and witnesses.

/-- An empty store. -/
def emptyDB : DB := ⟨[], [], [], [], [], []⟩

/-- A session over the empty store. -/
def emptySession : Session := ⟨emptyDB, emptyDB⟩

/-- Fixture: movie tt001 of user u, last modified at 100. -/
def movieC2 : MovieRow := ⟨"tt001", "u", none, none, "movie", some 100⟩

/-- Fixture store holding movieC2 and its status. -/
def dbC2 : DB := ⟨[movieC2], [⟨"tt001", "u", "toWatch", none⟩], [], [], [], []⟩

/-- Fixture session over dbC2. -/
def sessC2 : Session := ⟨dbC2, dbC2⟩

/-- Fixture: a stale addRecommendation with no person payload. -/
def actC2 : SyncAction :=
  { action := "addRecommendation", data := { imdb_id := some "tt001" }, timestamp := 10 }

/-- Fixture: an addRecommendation carrying a person vote. -/
def actC3 : SyncAction :=
  { action := "addRecommendation"
    data := { imdb_id := some "tt001", person := some "Alice",
              vote_type := some "upvote", date_recommended := some 50 }
    timestamp := 100 }

/-- Fixture: movie tt002 of user u, last modified at 110. -/
def movieC4 : MovieRow := ⟨"tt002", "u", none, none, "movie", some 110⟩

/-- Fixture store for the updateRating conflict scenario. -/
def dbC4 : DB :=
  ⟨[movieC4], [⟨"tt002", "u", "watched", none⟩], [], [], [],
   [⟨"tt002", "u", 50, 6⟩]⟩

/-- Fixture session over dbC4. -/
def sessC4 : Session := ⟨dbC4, dbC4⟩

/-- Fixture: updateRating with my_rating 7.5 and client timestamp 100
against a server entity modified at 110. -/
def dataC4 : SyncData := { imdb_id := some "tt002", my_rating := some (15 / 2) }

/-- Fixture: a well-formed addRecommendation without a person, used as the
second action of a batch. -/
def actC5b : SyncAction :=
  { action := "addRecommendation", data := { imdb_id := some "tt001" }, timestamp := 100 }

/-- Fixture: two movies of user u sharing last_modified 5, stored with the
larger imdb id first. -/
def movieC6a : MovieRow := ⟨"tt002", "u", none, none, "movie", some 5⟩

/-- Fixture: the second movie of the tie, with the smaller imdb id. -/
def movieC6b : MovieRow := ⟨"tt001", "u", none, none, "movie", some 5⟩

/-- Fixture store for the tie-break counterexample. -/
def dbC6 : DB := ⟨[movieC6a, movieC6b], [], [], [], [], []⟩

/-- Fixture: a person of user u modified at 5. -/
def personC7 : PersonRow := ⟨1, "Alice", "u", some false, "#0a84ff", none, none, some 5⟩

/-- Fixture store whose delta since 1 contains exactly that person. -/
def dbC7 : DB := ⟨[], [], [], [personC7], [], []⟩

/-- Fixture: the custom list to delete. -/
def listC8 : CustomListRow := ⟨"L1", "u", "Watchlist", "#0a84ff", "list", 0, 1, some 10⟩

/-- Fixture: a second list that must survive. -/
def listC8b : CustomListRow := ⟨"L2", "u", "Other", "#0a84ff", "list", 1, 1, some 10⟩

/-- Fixture store: two statuses of user u reference L1, one references L2,
and one status of another user references L1. -/
def dbC8 : DB :=
  ⟨[], [⟨"m1", "u", "custom", some "L1"⟩, ⟨"m2", "u", "custom", some "L1"⟩,
        ⟨"m3", "u", "custom", some "L2"⟩, ⟨"m4", "v", "custom", some "L1"⟩],
   [], [], [listC8, listC8b], []⟩

/-- Fixture session over dbC8. -/
def sessC8 : Session := ⟨dbC8, dbC8⟩

/-- Fixture registry: alice has one healthy and one dead connection, bob
has one healthy connection. -/
def regC9 : Registry := fun v =>
  if v = "alice" then [⟨1, true⟩, ⟨2, false⟩]
  else if v = "bob" then [⟨3, true⟩]
  else []

/-- Fixture: movie tt009 of user u, last modified at 100. -/
def movieC10 : MovieRow := ⟨"tt009", "u", none, none, "movie", some 100⟩

/-- Fixture store holding movieC10. -/
def dbC10 : DB := ⟨[movieC10], [⟨"tt009", "u", "toWatch", none⟩], [], [], [], []⟩

/-- Fixture session over dbC10. -/
def sessC10 : Session := ⟨dbC10, dbC10⟩

/-- Fixture: updateRating payload naming movieC10. -/
def dataC10 : SyncData := { imdb_id := some "tt009" }

/-- Fixture: deleteList payload naming L1. -/
def dataC8 : SyncData := { id := some "L1" }

/-- The row slice [offset, offset+limit) of the merged feed that one
_collect_changes call serializes. -/
def pageRows (db : DB) (user_id : String) (since : ℚ) (limit offset : Nat) :
    List ChangeRow :=
  ((mergedRows db user_id since).drop offset).take limit

/-- The hasMore flag of one _collect_changes call. -/
def hasMoreAt (db : DB) (user_id : String) (since : ℚ) (limit offset : Nat) : Bool :=
  decide (offset + limit < (mergedRows db user_id since).length)

/-- A client paginating over a fixed store: take the current page and, as
long as hasMore is reported, continue at offset + limit.  Fuel bounds the
recursion; any fuel beyond the page count gives the full traversal. -/
def pagesFrom (db : DB) (user_id : String) (since : ℚ) (limit : Nat) :
    Nat → Nat → List ChangeRow
  | 0, _ => []
  | fuel + 1, offset =>
      let page := pageRows db user_id since limit offset
      if hasMoreAt db user_id since limit offset then
        page ++ pagesFrom db user_id since limit fuel (offset + limit)
      else page

/-- The union of all pages a client collects starting at offset 0. -/
def allPages (db : DB) (user_id : String) (since : ℚ) (limit : Nat) :
    List ChangeRow :=
  pagesFrom db user_id since limit ((mergedRows db user_id since).length + 1) 0

-- Theorems.

/-- On a movie already present, with no metadata arguments, the
get-or-create helper returns the stored row and leaves the session
untouched. -/
lemma get_or_create_found (now : ℚ) (s : Session) (user_id imdb_id : String)
    (m : MovieRow) (h : findMovie s.current user_id imdb_id = some m) :
    get_or_create_movie_with_state now s user_id imdb_id none none none =
      ⟨m, false, s⟩ := by
  unfold get_or_create_movie_with_state
  rw [h]
  simp [oTruthy]

/-- C1: has_conflict(server, client) is true iff client < server - 1.0 (the
skew grace); at the boundary client = server - 1.0 it is false; and with
either timestamp absent it is false. -/
theorem has_conflict_characterization :
    (∀ s c : ℚ, has_conflict (some s) (some c) = true ↔ c < s - 1) ∧
    (∀ s : ℚ, has_conflict (some s) (some (s - 1)) = false) ∧
    (∀ c : Option ℚ, has_conflict none c = false) ∧
    (∀ s : Option ℚ, has_conflict s none = false) := by
  refine ⟨?_, ?_, ?_, ?_⟩
  · intro s c
    simp [has_conflict, CLOCK_SKEW_GRACE_SECONDS]
  · intro s
    simp [has_conflict, CLOCK_SKEW_GRACE_SECONDS]
  · intro c
    cases c <;> rfl
  · intro s
    cases s <;> rfl

/-- C2 counterexample: an addRecommendation whose client timestamp (10) is
stale against the server last_modified (100) far beyond the skew grace is
nevertheless applied: the response reports no conflict and success, and
the store is mutated (last_modified moves to the processing time 200). -/
theorem addRecommendation_stale_writes_anyway :
    has_conflict (some 100) (normalize_client_timestamp (some 10)) = true ∧
    (processSyncAction 200 "u" "x" actC2 sessC2).1.conflict = false ∧
    (processSyncAction 200 "u" "x" actC2 sessC2).1.success = true ∧
    (processSyncAction 200 "u" "x" actC2 sessC2).2.2.current.movies =
      [{ movieC2 with last_modified := some 200 }] := by
  refine ⟨?_, ?_, ?_, ?_⟩ <;> with_unfolding_all rfl

/-- C2 (amended): the addRecommendation branch never invokes the conflict
resolver; for every payload, timestamp and store state its response has
conflict = false. -/
theorem addRecommendation_never_conflicts (now : ℚ) (user_id fresh_uuid : String)
    (data : SyncData) (ts : ℚ) (s : Session) :
    (processSyncAction now user_id fresh_uuid
      ⟨"addRecommendation", data, ts⟩ s).1.conflict = false := by
  unfold processSyncAction processSyncActionCore
  by_cases h1 : oTruthy data.imdb_id = true <;>
    by_cases h2 : oTruthy data.person = true <;>
      simp [h1, h2]

/-- C3 (code bug): submitting the same person-carrying addRecommendation
twice never reaches the upsert: each call raises (the Recommendation model
keys people by person_id and its person attribute is a read-only property),
is rolled back, and returns an error; no Recommendation row is ever
created or updated. -/
theorem addRecommendation_person_always_raises :
    (processSyncAction 100 "u" "x1" actC3 emptySession).1.success = false ∧
    (processSyncAction 100 "u" "x1" actC3 emptySession).1.error =
      some "AttributeError: property person of Recommendation object has no setter" ∧
    (processSyncAction 100 "u" "x1" actC3 emptySession).2.2 = emptySession ∧
    (processSyncAction 100 "u" "x2" actC3
        (processSyncAction 100 "u" "x1" actC3 emptySession).2.2).1 =
      (processSyncAction 100 "u" "x1" actC3 emptySession).1 ∧
    (processSyncAction 100 "u" "x2" actC3
        (processSyncAction 100 "u" "x1" actC3 emptySession).2.2).2.2.current.recommendations =
      [] := by
  refine ⟨?_, ?_, ?_, ?_, ?_⟩ <;> with_unfolding_all rfl

/-- C4: an updateRating action against a movie whose last_modified is newer
than the normalized client timestamp beyond the skew grace yields a
conflict response carrying the server last_modified and the serialized
server state, emits no event, and leaves the session untouched. -/
theorem updateRating_conflict_response
    (now : ℚ) (user_id fresh_uuid imdb : String) (data : SyncData) (ts : ℚ)
    (s : Session) (m : MovieRow)
    (h1 : data.imdb_id = some imdb) (h2 : imdb ≠ "")
    (h3 : findMovie s.current user_id imdb = some m)
    (h4 : has_conflict m.last_modified (normalize_client_timestamp (some ts)) = true) :
    (processSyncAction now user_id fresh_uuid
        ⟨"updateRating", data, ts⟩ s).1.conflict = true ∧
    (processSyncAction now user_id fresh_uuid
        ⟨"updateRating", data, ts⟩ s).1.last_modified = m.last_modified ∧
    (processSyncAction now user_id fresh_uuid
        ⟨"updateRating", data, ts⟩ s).1.server_state =
      some (serialize_movie s.current m) ∧
    (processSyncAction now user_id fresh_uuid
        ⟨"updateRating", data, ts⟩ s).1.success = false ∧
    (processSyncAction now user_id fresh_uuid
        ⟨"updateRating", data, ts⟩ s).2.1 = [] ∧
    (processSyncAction now user_id fresh_uuid
        ⟨"updateRating", data, ts⟩ s).2.2 = s := by
  have hb : oTruthy data.imdb_id = true := by
    rw [h1]
    simp only [oTruthy, Bool.not_eq_true']
    cases he : imdb.isEmpty
    · rfl
    · exact absurd ((String.isEmpty_iff imdb).mp he) h2
  have hg : data.imdb_id.getD "" = imdb := by rw [h1]; rfl
  unfold processSyncAction processSyncActionCore
  rw [hg]
  simp [hb, get_or_create_found now s user_id imdb m h3, check_conflict, h4]

/-- C4 witness: the concrete scenario with last_modified 110 and client
timestamp 100 (10 seconds stale). -/
theorem updateRating_conflict_response_witness :
    (processSyncAction 200 "u" "x"
        ⟨"updateRating", dataC4, 100⟩ sessC4).1.conflict = true ∧
    (processSyncAction 200 "u" "x"
        ⟨"updateRating", dataC4, 100⟩ sessC4).1.last_modified = movieC4.last_modified ∧
    (processSyncAction 200 "u" "x"
        ⟨"updateRating", dataC4, 100⟩ sessC4).1.server_state =
      some (serialize_movie sessC4.current movieC4) ∧
    (processSyncAction 200 "u" "x"
        ⟨"updateRating", dataC4, 100⟩ sessC4).1.success = false ∧
    (processSyncAction 200 "u" "x"
        ⟨"updateRating", dataC4, 100⟩ sessC4).2.1 = [] ∧
    (processSyncAction 200 "u" "x"
        ⟨"updateRating", dataC4, 100⟩ sessC4).2.2 = sessC4 :=
  updateRating_conflict_response 200 "u" "x" "tt002" dataC4 100 sessC4 movieC4
    rfl (by decide) rfl (by with_unfolding_all rfl)

/-- The batch loop returns one result per remaining action. -/
lemma syncBatchGo_length (now : ℚ) (user_id : String) (uuidOf : Nat → String) :
    ∀ (acts : List SyncAction) (k : Nat) (s : Session),
      (syncBatchGo now user_id uuidOf k acts s).1.length = acts.length := by
  intro acts
  induction acts with
  | nil => intro k s; rfl
  | cons a rest ih =>
      intro k s
      simp only [syncBatchGo, List.length_cons]
      rw [ih]

/-- The i-th result of the batch loop is the processing of the i-th
remaining action on the session left behind by the actions before it. -/
lemma syncBatchGo_get (now : ℚ) (user_id : String) (uuidOf : Nat → String) :
    ∀ (acts : List SyncAction) (k : Nat) (s : Session) (i : Nat)
      (h : i < acts.length),
      (syncBatchGo now user_id uuidOf k acts s).1[i]? =
        some (processSyncAction now user_id (uuidOf (k + i)) (acts.get ⟨i, h⟩)
          (syncBatchGo now user_id uuidOf k (acts.take i) s).2.2).1 := by
  intro acts
  induction acts with
  | nil =>
      intro k s i h
      exact absurd h (by simp)
  | cons a rest ih =>
      intro k s i h
      cases i with
      | zero => simp [syncBatchGo]
      | succ j =>
          have hj : j < rest.length := by simpa using h
          have hidx : k + 1 + j = k + (j + 1) := by omega
          simp only [syncBatchGo, List.getElem?_cons_succ, List.take_succ_cons,
            List.get_cons_succ]
          rw [ih (k + 1) (processSyncAction now user_id (uuidOf k) a s).2.2 j hj, hidx]

/-- C5: the batch endpoint produces exactly one result per input action,
in submission order; the i-th result is the i-th action processed on the
state left by the first i actions, so an error in an earlier action never
prevents a later action from being processed and the batch never aborts
early. -/
theorem sync_batch_in_order (now : ℚ) (user_id : String) (uuidOf : Nat → String)
    (actions : List SyncAction) (s : Session) :
    (sync_batch now user_id uuidOf actions s).1.results.length = actions.length ∧
    ∀ (i : Nat) (h : i < actions.length),
      (sync_batch now user_id uuidOf actions s).1.results[i]? =
        some (processSyncAction now user_id (uuidOf i) (actions.get ⟨i, h⟩)
          (syncBatchGo now user_id uuidOf 0 (actions.take i) s).2.2).1 := by
  constructor
  · simpa [sync_batch] using syncBatchGo_length now user_id uuidOf actions 0 s
  · intro i h
    simpa [sync_batch] using syncBatchGo_get now user_id uuidOf actions 0 s i h

/-- C5 witness: a two-action batch whose first action raises (the broken
person-carrying addRecommendation) still processes and reports the second
action. -/
theorem sync_batch_in_order_witness :
    (sync_batch 100 "u" (fun _ => "x") [actC3, actC5b] emptySession).1.results.length =
      [actC3, actC5b].length ∧
    (sync_batch 100 "u" (fun _ => "x") [actC3, actC5b] emptySession).1.results[0]? =
      some (processSyncAction 100 "u" "x" ([actC3, actC5b].get ⟨0, by decide⟩)
        (syncBatchGo 100 "u" (fun _ => "x") 0 ([actC3, actC5b].take 0) emptySession).2.2).1 ∧
    (sync_batch 100 "u" (fun _ => "x") [actC3, actC5b] emptySession).1.results[1]? =
      some (processSyncAction 100 "u" "x" ([actC3, actC5b].get ⟨1, by decide⟩)
        (syncBatchGo 100 "u" (fun _ => "x") 0 ([actC3, actC5b].take 1) emptySession).2.2).1 :=
  ⟨(sync_batch_in_order 100 "u" (fun _ => "x") [actC3, actC5b] emptySession).1,
   (sync_batch_in_order 100 "u" (fun _ => "x") [actC3, actC5b] emptySession).2 0 (by decide),
   (sync_batch_in_order 100 "u" (fun _ => "x") [actC3, actC5b] emptySession).2 1 (by decide)⟩

/-- Membership across a stable insertion step. -/
lemma mem_insertByTime (x a : ChangeRow) :
    ∀ l, a ∈ insertByTime x l ↔ a = x ∨ a ∈ l := by
  intro l
  induction l with
  | nil => simp [insertByTime]
  | cons y ys ih =>
      simp only [insertByTime]
      split
      · simp only [List.mem_cons, ih]
        tauto
      · simp [List.mem_cons]

/-- The stable insertion step preserves sortedness by change time. -/
lemma pairwise_insertByTime (x : ChangeRow) :
    ∀ l, l.Pairwise (fun a b => changeKey a ≤ changeKey b) →
      (insertByTime x l).Pairwise (fun a b => changeKey a ≤ changeKey b) := by
  intro l
  induction l with
  | nil => intro _; simp [insertByTime]
  | cons y ys ih =>
      intro hp
      rw [List.pairwise_cons] at hp
      simp only [insertByTime]
      split
      · rename_i hyx
        rw [List.pairwise_cons]
        refine ⟨?_, ih hp.2⟩
        intro b hb
        rw [mem_insertByTime] at hb
        rcases hb with hb | hb
        · exact hb ▸ (le_of_lt hyx)
        · exact hp.1 b hb
      · rename_i hyx
        have hxy : changeKey x ≤ changeKey y := le_of_not_lt hyx
        rw [List.pairwise_cons]
        refine ⟨?_, List.pairwise_cons.mpr hp⟩
        intro b hb
        rcases List.mem_cons.mp hb with hb | hb
        · exact hb ▸ hxy
        · exact hxy.trans (hp.1 b hb)

/-- The feed sort produces a sequence ordered by change time. -/
lemma pairwise_sortByTime :
    ∀ l : List ChangeRow,
      (sortByTime l).Pairwise (fun a b => changeKey a ≤ changeKey b) := by
  intro l
  induction l with
  | nil => simp [sortByTime]
  | cons x xs ih => exact pairwise_insertByTime x (sortByTime xs) ih

/-- Filtering one time value across a stable insertion step: the new
element lands in front of every stored element with that same time,
because insertion only passes elements with strictly smaller keys. -/
lemma filter_insertByTime (t : ℚ) (x : ChangeRow) :
    ∀ l, (insertByTime x l).filter (fun r => changeKey r == t) =
      if changeKey x == t then x :: l.filter (fun r => changeKey r == t)
      else l.filter (fun r => changeKey r == t) := by
  intro l
  induction l with
  | nil =>
      by_cases hx : changeKey x = t
      · simp [insertByTime, List.filter, hx]
      · have hx' : (changeKey x == t) = false := beq_eq_false_iff_ne.mpr hx
        simp [insertByTime, List.filter, hx']
  | cons y ys ih =>
      simp only [insertByTime]
      split
      · rename_i hyx
        by_cases hx : changeKey x = t
        · have hy : (changeKey y == t) = false := by
            have : changeKey y ≠ t := by
              intro hyt
              rw [hyt, ← hx] at hyx
              exact lt_irrefl _ hyx
            simpa using this
          simp [List.filter_cons, hy, ih, hx]
        · have hx' : (changeKey x == t) = false := by simpa using hx
          simp [List.filter_cons, ih, hx']
      · by_cases hx : changeKey x = t
        · simp [List.filter_cons, hx]
        · have hx' : (changeKey x == t) = false := by simpa using hx
          simp [List.filter_cons, hx']

/-- Stability of the feed sort: restricted to any one time value, the
sorted sequence lists exactly the rows of the unsorted concatenation, in
the same order. -/
lemma filter_sortByTime (t : ℚ) :
    ∀ l : List ChangeRow,
      (sortByTime l).filter (fun r => changeKey r == t) =
        l.filter (fun r => changeKey r == t) := by
  intro l
  induction l with
  | nil => rfl
  | cons x xs ih =>
      simp only [sortByTime, filter_insertByTime, ih, List.filter_cons]

/-- C6 (amended): the merged feed sequence is ordered by modification time
ascending, and the sort is stable: rows sharing a change time appear in
the order of the unsorted concatenation (all movies, then people, then
lists, each in store order).  Ties are not reordered by identifier. -/
theorem mergedRows_sorted_and_stable (db : DB) (user_id : String) (since : ℚ) :
    (mergedRows db user_id since).Pairwise (fun a b => changeKey a ≤ changeKey b) ∧
    ∀ t : ℚ, (mergedRows db user_id since).filter (fun r => changeKey r == t) =
      (changeRowsUnsorted db user_id since).filter (fun r => changeKey r == t) :=
  ⟨pairwise_sortByTime (changeRowsUnsorted db user_id since),
   fun t => filter_sortByTime t (changeRowsUnsorted db user_id since)⟩

/-- C6 counterexample: two movies of one user share last_modified 5 and are
stored with the larger imdb id first; the merged sequence keeps the store
order tt002, tt001, so adjacent tied rows violate the claimed
kind-then-identifier tie-break. -/
theorem mergedRows_tie_not_identifier_ordered :
    mergedRows dbC6 "u" 0 =
      [("movie", 5, ChangeEntity.movie movieC6a),
       ("movie", 5, ChangeEntity.movie movieC6b)] ∧
    (mergedRows dbC6 "u" 0).map changeEntityId = ["tt002", "tt001"] ∧
    ¬ specTieOrder ("movie", 5, ChangeEntity.movie movieC6a)
        ("movie", 5, ChangeEntity.movie movieC6b) := by
  refine ⟨?_, ?_, ?_⟩
  · with_unfolding_all rfl
  · with_unfolding_all rfl
  · with_unfolding_all decide

/-- C7 (code bug): with a changed person row in the delta, the change feed
request does not return a page at all: building the person payload reads
the dropped is_default attribute and raises, so no pagination can be
completed.  Shown at since 1, limit 2, offset 0 over a store whose delta
is exactly one person. -/
theorem changes_with_person_raises :
    collectChanges 99 dbC7 "u" 1 2 0 =
      .error "AttributeError: Person object has no attribute is_default" := by
  with_unfolding_all rfl

/-- C8: deleting an existing custom list rewrites exactly the statuses of
that user which reference the list to toWatch with a cleared reference,
leaves every other status row untouched (positionally), removes every row
of the list itself, and commits the result. -/
theorem deleteList_cascade
    (now : ℚ) (user_id fresh_uuid list_id : String) (data : SyncData) (ts : ℚ)
    (s : Session) (cl : CustomListRow)
    (h1 : data.id = some list_id)
    (h2 : s.current.custom_lists.find? (fun l =>
        l.id == list_id && l.user_id == user_id) = some cl) :
    (processSyncAction now user_id fresh_uuid
        ⟨"deleteList", data, ts⟩ s).2.2.current.statuses =
      s.current.statuses.map (fun st =>
        if st.custom_list_id == some list_id && st.user_id == user_id then
          { st with status := "toWatch", custom_list_id := none }
        else st) ∧
    (processSyncAction now user_id fresh_uuid
        ⟨"deleteList", data, ts⟩ s).2.2.current.custom_lists =
      s.current.custom_lists.filter (fun l => !(l.id == list_id)) ∧
    ((processSyncAction now user_id fresh_uuid
        ⟨"deleteList", data, ts⟩ s).2.2.current.custom_lists.filter (fun l =>
          l.id == list_id)).length = 0 ∧
    (processSyncAction now user_id fresh_uuid
        ⟨"deleteList", data, ts⟩ s).2.2.committed =
      (processSyncAction now user_id fresh_uuid
        ⟨"deleteList", data, ts⟩ s).2.2.current := by
  unfold processSyncAction processSyncActionCore
  rw [h1]
  simp [h2, Session.commit, List.filter_filter]

/-- C8 witness: deleting L1 for user u over a store where two statuses of u
reference L1, one references L2, and one status of another user references
L1. -/
theorem deleteList_cascade_witness :
    (processSyncAction 50 "u" "x"
        ⟨"deleteList", dataC8, 77⟩ sessC8).2.2.current.statuses =
      sessC8.current.statuses.map (fun st =>
        if st.custom_list_id == some "L1" && st.user_id == "u" then
          { st with status := "toWatch", custom_list_id := none }
        else st) ∧
    (processSyncAction 50 "u" "x"
        ⟨"deleteList", dataC8, 77⟩ sessC8).2.2.current.custom_lists =
      sessC8.current.custom_lists.filter (fun l => !(l.id == "L1")) ∧
    ((processSyncAction 50 "u" "x"
        ⟨"deleteList", dataC8, 77⟩ sessC8).2.2.current.custom_lists.filter (fun l =>
          l.id == "L1")).length = 0 ∧
    (processSyncAction 50 "u" "x"
        ⟨"deleteList", dataC8, 77⟩ sessC8).2.2.committed =
      (processSyncAction 50 "u" "x"
        ⟨"deleteList", dataC8, 77⟩ sessC8).2.2.current :=
  deleteList_cascade 50 "u" "x" "L1" dataC8 77 sessC8 listC8 rfl rfl

/-- Pruning dead connections of one user never touches the entry of any
other user. -/
lemma broadcast_fold_ne (u : String) :
    ∀ (snap : List Conn) (reg : Registry) (v : String), v ≠ u →
      (snap.foldl (fun r c => if c.ok then r else disconnect r u c) reg) v = reg v := by
  intro snap
  induction snap with
  | nil => intro reg v _; rfl
  | cons c cs ih =>
      intro reg v hv
      simp only [List.foldl_cons]
      by_cases hc : c.ok
      · rw [if_pos hc]
        exact ih reg v hv
      · rw [if_neg hc, ih (disconnect reg u c) v hv]
        unfold disconnect
        simp [hv]

/-- Applied at the broadcasting user, the registry fold acts as a fold of
list removals over that user entry. -/
lemma broadcast_fold_eq (u : String) :
    ∀ (snap : List Conn) (reg : Registry),
      (snap.foldl (fun r c => if c.ok then r else disconnect r u c) reg) u =
        snap.foldl (fun (acc : List Conn) c =>
          if c.ok then acc else acc.filter (fun x => !(x == c))) (reg u) := by
  intro snap
  induction snap with
  | nil => intro reg; rfl
  | cons c cs ih =>
      intro reg
      simp only [List.foldl_cons]
      by_cases hc : c.ok
      · rw [if_pos hc, if_pos hc]
        exact ih reg
      · rw [if_neg hc, if_neg hc, ih (disconnect reg u c)]
        unfold disconnect
        simp

/-- Removing, one by one, every dead connection listed in the snapshot
from a list whose dead members all appear in the snapshot leaves exactly
the healthy connections. -/
lemma foldl_prune_eq_filter :
    ∀ (snap l : List Conn),
      (∀ c, c ∈ l → c.ok = false → c ∈ snap) →
      snap.foldl (fun (acc : List Conn) c =>
        if c.ok then acc else acc.filter (fun x => !(x == c))) l =
        l.filter (·.ok) := by
  intro snap
  induction snap with
  | nil =>
      intro l hl
      symm
      apply List.filter_eq_self.mpr
      intro c hc
      cases ho : c.ok
      · exact absurd (hl c hc ho) (by simp)
      · rfl
  | cons c cs ih =>
      intro l hl
      simp only [List.foldl_cons]
      by_cases hc : c.ok
      · rw [if_pos hc]
        apply ih
        intro d hd hdo
        rcases List.mem_cons.mp (hl d hd hdo) with hdc | hdc
        · exfalso
          rw [hdc] at hdo
          rw [hdo] at hc
          exact Bool.false_ne_true hc
        · exact hdc
      · rw [if_neg hc]
        rw [ih (l.filter (fun x => !(x == c))) ?_]
        · rw [List.filter_filter]
          apply List.filter_congr
          intro x hx
          cases ho : x.ok
          · simp [ho]
          · have hxc : (x == c) = false := by
              apply beq_eq_false_iff_ne.mpr
              intro hxceq
              rw [hxceq] at ho
              exact hc ho
            simp [ho, hxc]
        · intro d hd hdo
          have hd' := List.mem_filter.mp hd
          rcases List.mem_cons.mp (hl d hd'.1 hdo) with hdc | hdc
          · have : (d == c) = true := by simp [hdc]
            rw [this] at hd'
            exact absurd hd'.2 (by simp)
          · exact hdc

/-- C9: broadcasting to user A delivers only to handles registered under A
(so never to a connection registered only under another user B), leaves
the entry of every other user unchanged, and prunes from the entry of A
exactly the handles whose send failed. -/
theorem broadcast_isolation (reg : Registry) (userA userB message : String)
    (hAB : userA ≠ userB) :
    (∀ c ∈ (broadcast reg userA message).1, c ∈ reg userA) ∧
    (broadcast reg userA message).2 userB = reg userB ∧
    (broadcast reg userA message).2 userA = (reg userA).filter (·.ok) := by
  refine ⟨?_, ?_, ?_⟩
  · intro c hc
    exact (List.mem_filter.mp hc).1
  · exact broadcast_fold_ne userA (reg userA) reg userB (Ne.symm hAB)
  · rw [show (broadcast reg userA message).2 userA =
        (List.foldl (fun r c => if c.ok then r else disconnect r userA c)
          reg (reg userA)) userA from rfl,
      broadcast_fold_eq userA (reg userA) reg]
    exact foldl_prune_eq_filter (reg userA) (reg userA) (fun c hc _ => hc)

/-- C9 witness: alice has one healthy and one dead connection, bob has one
healthy connection; broadcasting to alice delivers only within her entry,
leaves the bob entry unchanged and prunes exactly the dead handle. -/
theorem broadcast_isolation_witness :
    (∀ c ∈ (broadcast regC9 "alice" "hello").1, c ∈ regC9 "alice") ∧
    (broadcast regC9 "alice" "hello").2 "bob" = regC9 "bob" ∧
    (broadcast regC9 "alice" "hello").2 "alice" =
      (regC9 "alice").filter (·.ok) :=
  broadcast_isolation regC9 "alice" "bob" "hello" (by decide)

/-- C10: the client timestamp normalization divides values above
10,000,000,000 (taken as milliseconds) by 1000, passes smaller values
through unchanged, keeps an absent timestamp absent, and the conflict
check of a conflict-checked action (updateRating on an existing movie)
compares the server last_modified against the normalized value. -/
theorem timestamp_normalization :
    (∀ v : ℚ, 10000000000 < v →
      normalize_client_timestamp (some v) = some (v / 1000)) ∧
    (∀ v : ℚ, v ≤ 10000000000 →
      normalize_client_timestamp (some v) = some v) ∧
    normalize_client_timestamp none = none ∧
    (∀ (now : ℚ) (user_id fresh_uuid imdb : String) (data : SyncData) (ts : ℚ)
       (s : Session) (m : MovieRow),
       data.imdb_id = some imdb → imdb ≠ "" →
       findMovie s.current user_id imdb = some m →
       (processSyncAction now user_id fresh_uuid
           ⟨"updateRating", data, ts⟩ s).1.conflict =
         has_conflict m.last_modified (normalize_client_timestamp (some ts))) := by
  refine ⟨?_, ?_, rfl, ?_⟩
  · intro v hv
    simp [normalize_client_timestamp, hv]
  · intro v hv
    simp [normalize_client_timestamp, not_lt.mpr hv]
  · intro now user_id fresh_uuid imdb data ts s m h1 h2 h3
    have hb : oTruthy data.imdb_id = true := by
      rw [h1]
      simp only [oTruthy, Bool.not_eq_true']
      cases he : imdb.isEmpty
      · rfl
      · exact absurd ((String.isEmpty_iff imdb).mp he) h2
    have hg : data.imdb_id.getD "" = imdb := by rw [h1]; rfl
    unfold processSyncAction processSyncActionCore
    rw [hg]
    cases hcf : has_conflict m.last_modified (normalize_client_timestamp (some ts))
    · simp [hb, get_or_create_found now s user_id imdb m h3, check_conflict, hcf]
      rcases hw : List.find? (fun w => w.imdb_id == imdb && w.user_id == user_id)
          s.current.watch_history with _ | w
      · simp [hw]
      · rcases hr : data.my_rating <|> data.rating with _ | rating
        · simp [hw, hr]
        · simp [hw, hr]
    · simp [hb, get_or_create_found now s user_id imdb m h3, check_conflict, hcf]

/-- C10 witness: 20,000,000,000 is normalized to 20,000,000 seconds, 100
passes through, None stays None, and the concrete updateRating conflict
flag at raw timestamp 98.5 against last_modified 100 equals the resolver
verdict on the normalized value. -/
theorem timestamp_normalization_witness :
    normalize_client_timestamp (some 20000000000) = some 20000000 ∧
    normalize_client_timestamp (some 100) = some 100 ∧
    normalize_client_timestamp none = none ∧
    (processSyncAction 200 "u" "x"
        ⟨"updateRating", dataC10, 197 / 2⟩ sessC10).1.conflict =
      has_conflict movieC10.last_modified
        (normalize_client_timestamp (some (197 / 2))) := by
  refine ⟨?_, ?_, timestamp_normalization.2.2.1,
    timestamp_normalization.2.2.2 200 "u" "x" "tt009" dataC10 (197 / 2) sessC10
      movieC10 rfl (by decide) rfl⟩
  · rw [timestamp_normalization.1 20000000000 (by norm_num)]
    norm_num
  · exact timestamp_normalization.2.1 100 (by norm_num)

/-- With enough fuel, paginating from any offset yields exactly the tail
of the merged feed from that offset: each hasMore step advances by limit
without losing or duplicating a row. -/
lemma pagesFrom_complete (db : DB) (user_id : String) (since : ℚ)
    (limit : Nat) (hl : 1 ≤ limit) :
    ∀ (fuel offset : Nat),
      (mergedRows db user_id since).length ≤ offset + limit * fuel →
      pagesFrom db user_id since limit fuel offset =
        (mergedRows db user_id since).drop offset := by
  intro fuel
  induction fuel with
  | zero =>
      intro offset hoff
      simp only [Nat.mul_zero, Nat.add_zero] at hoff
      rw [pagesFrom, List.drop_eq_nil_of_le hoff]
  | succ fuel ih =>
      intro offset hoff
      rw [pagesFrom]
      by_cases hm : hasMoreAt db user_id since limit offset
      · rw [if_pos hm]
        have hrec : (mergedRows db user_id since).length ≤
            (offset + limit) + limit * fuel := by
          have : limit * (fuel + 1) = limit + limit * fuel := by ring
          omega
        rw [ih (offset + limit) hrec]
        unfold pageRows
        rw [show (mergedRows db user_id since).drop (offset + limit) =
            ((mergedRows db user_id since).drop offset).drop limit by
          simp [List.drop_drop, Nat.add_comm]]
        exact List.take_append_drop limit ((mergedRows db user_id since).drop offset)
      · rw [if_neg hm]
        unfold hasMoreAt at hm
        have hm' : (mergedRows db user_id since).length ≤ offset + limit := by
          simpa using hm
        unfold pageRows
        apply List.take_of_length_le
        rw [List.length_drop]
        omega

/-- Paginating from offset 0 until hasMore is false reassembles the whole
merged feed, with no duplicates and no omissions. -/
lemma allPages_complete (db : DB) (user_id : String) (since : ℚ)
    (limit : Nat) (hl : 1 ≤ limit) :
    allPages db user_id since limit = mergedRows db user_id since := by
  unfold allPages
  rw [pagesFrom_complete db user_id since limit hl
    ((mergedRows db user_id since).length + 1) 0 ?_]
  · exact List.drop_zero _
  · have hmul : ((mergedRows db user_id since).length + 1) ≤
        limit * ((mergedRows db user_id since).length + 1) :=
      Nat.le_mul_of_pos_left _ hl
    omega

end MM
